import Mathlib

/-!
Shallow embedding of the analytics-and-insight engine of `o9nn/cog-ts`
(files `src/ai-opencog/src/node/analytics/*.ts`).

Numbers: the TypeScript sources compute with JS doubles on small, exactly
representable values (integer scores, two-decimal thresholds); they are
embedded as `ℚ`.  Timestamps (`Date.now()`, milliseconds) are embedded as
`ℤ` and passed explicitly wherever the source calls `Date.now()`; within a
single method invocation every call of `Date.now()` is modelled by the same
parameter.  The simulated collaborator values (the stubbed private helpers
returning constants / `Math.random()` stand-ins) are modelled as explicit
parameters of the public operations, as the spec treats them as inputs
supplied by external collaborators.  The untyped `supportingData` field of
insights is omitted (it is an opaque `Record<string, unknown>` never read
by the engine).
-/

namespace Cog

/-- Source `CognitivePerformanceMetrics` (analytics-types). -/
structure CognitivePerformanceMetrics where
  timestamp : ℤ
  reasoningAccuracy : ℚ
  reasoningLatency : ℚ
  learningConvergence : ℚ
  predictionAccuracy : ℚ
  knowledgeGraphSize : ℚ
  activePatterns : ℚ
deriving DecidableEq

/-- Health status values of `getCognitiveSystemHealth`. -/
inductive HealthStatus where
  | healthy
  | degraded
  | critical
deriving DecidableEq

/-- Return shape of `getCognitiveSystemHealth`. -/
structure HealthReport where
  status : HealthStatus
  issues : List String
  recommendations : List String
deriving DecidableEq

/-- Reasoning-accuracy branch of `getCognitiveSystemHealth`
(cognitive-analytics-service-impl.ts lines 204-212): penalty, issue,
recommendation. -/
def accuracyCheck (a : ℚ) : ℚ × List String × List String :=
  if a < 7/10 then
    (30, ["Reasoning accuracy critically low"], ["Immediate model retraining required"])
  else if a < 8/10 then
    (15, ["Reasoning accuracy below optimal"], ["Schedule model retraining"])
  else
    (0, [], [])

/-- Reasoning-latency branch (lines 215-223). -/
def latencyCheck (l : ℚ) : ℚ × List String × List String :=
  if 500 < l then
    (20, ["High reasoning latency detected"], ["Optimize query patterns and implement caching"])
  else if 200 < l then
    (10, ["Elevated reasoning latency"], ["Review and optimize critical paths"])
  else
    (0, [], [])

/-- Learning-convergence branch (lines 226-230). -/
def convergenceCheck (c : ℚ) : ℚ × List String × List String :=
  if c < 6/10 then
    (15, ["Learning algorithms not converging well"],
      ["Review training data quality and hyperparameters"])
  else
    (0, [], [])

/-- Prediction-accuracy branch (lines 233-237). -/
def predictionCheck (p : ℚ) : ℚ × List String × List String :=
  if p < 7/10 then
    (15, ["Low prediction accuracy"], ["Enhance feature engineering and model selection"])
  else
    (0, [], [])

/-- The health score of `getCognitiveSystemHealth`: starts at 100 and
subtracts the penalty of each fired branch. -/
def cognitiveHealthScore (m : CognitivePerformanceMetrics) : ℚ :=
  100 - (accuracyCheck m.reasoningAccuracy).1 - (latencyCheck m.reasoningLatency).1
      - (convergenceCheck m.learningConvergence).1 - (predictionCheck m.predictionAccuracy).1

/-- Source `getCognitiveSystemHealth` (lines 193-250): score, three-way
classification, and the accumulated issue / recommendation strings. -/
def getCognitiveSystemHealth (m : CognitivePerformanceMetrics) : HealthReport :=
  { status :=
      if 80 ≤ cognitiveHealthScore m then HealthStatus.healthy
      else if 50 ≤ cognitiveHealthScore m then HealthStatus.degraded
      else HealthStatus.critical
    issues :=
      (accuracyCheck m.reasoningAccuracy).2.1 ++ (latencyCheck m.reasoningLatency).2.1
        ++ (convergenceCheck m.learningConvergence).2.1 ++ (predictionCheck m.predictionAccuracy).2.1
    recommendations :=
      (accuracyCheck m.reasoningAccuracy).2.2 ++ (latencyCheck m.reasoningLatency).2.2
        ++ (convergenceCheck m.learningConvergence).2.2
        ++ (predictionCheck m.predictionAccuracy).2.2 }

/-- The spec example snapshot: accuracy 0.65, latency 100, convergence 0.9,
prediction accuracy 0.9. -/
def healthExampleMetrics : CognitivePerformanceMetrics :=
  { timestamp := 0
    reasoningAccuracy := 65/100
    reasoningLatency := 100
    learningConvergence := 9/10
    predictionAccuracy := 9/10
    knowledgeGraphSize := 15000
    activePatterns := 450 }

lemma accuracyCheck_fst (a : ℚ) :
    (accuracyCheck a).1 = if a < 7/10 then 30 else if 7/10 ≤ a ∧ a < 8/10 then 15 else 0 := by
  unfold accuracyCheck
  split_ifs with h1 h2 h3 h4
  · rfl
  · rfl
  · exact absurd ⟨le_of_not_lt h1, h2⟩ h3
  · exact absurd h4.2 h2
  · rfl

lemma latencyCheck_fst (l : ℚ) :
    (latencyCheck l).1 = if 500 < l then 20 else if 200 < l ∧ l ≤ 500 then 10 else 0 := by
  unfold latencyCheck
  split_ifs with h1 h2 h3 h4
  · rfl
  · rfl
  · exact absurd ⟨h2, le_of_not_lt h1⟩ h3
  · exact absurd h4.1 h2
  · rfl

lemma convergenceCheck_fst (c : ℚ) :
    (convergenceCheck c).1 = if c < 6/10 then 15 else 0 := by
  unfold convergenceCheck
  split_ifs <;> rfl

lemma predictionCheck_fst (p : ℚ) :
    (predictionCheck p).1 = if p < 7/10 then 15 else 0 := by
  unfold predictionCheck
  split_ifs <;> rfl

/-- C1: `getCognitiveSystemHealth` starts from 100, subtracts exactly the
fixed penalty of each violated threshold (accuracy < 0.7: 30; accuracy in
[0.7, 0.8): 15; latency > 500: 20; latency in (200, 500]: 10;
convergence < 0.6: 15; prediction accuracy < 0.7: 15, accumulating
independently), classifies score ≥ 80 as healthy, 50 ≤ score < 80 as
degraded, score < 50 as critical; and on the example snapshot
(accuracy 0.65, latency 100, convergence 0.9, prediction 0.9) the score is
70 and the status is degraded. -/
theorem getCognitiveSystemHealth_spec (m : CognitivePerformanceMetrics) :
    cognitiveHealthScore m =
      100 - (if m.reasoningAccuracy < 7/10 then 30
             else if 7/10 ≤ m.reasoningAccuracy ∧ m.reasoningAccuracy < 8/10 then 15 else 0)
          - (if 500 < m.reasoningLatency then 20
             else if 200 < m.reasoningLatency ∧ m.reasoningLatency ≤ 500 then 10 else 0)
          - (if m.learningConvergence < 6/10 then 15 else 0)
          - (if m.predictionAccuracy < 7/10 then 15 else 0)
    ∧ (getCognitiveSystemHealth m).status =
        (if 80 ≤ cognitiveHealthScore m then HealthStatus.healthy
         else if 50 ≤ cognitiveHealthScore m then HealthStatus.degraded
         else HealthStatus.critical)
    ∧ cognitiveHealthScore healthExampleMetrics = 70
    ∧ (getCognitiveSystemHealth healthExampleMetrics).status = HealthStatus.degraded := by
  refine ⟨?_, rfl, ?_, ?_⟩
  · unfold cognitiveHealthScore
    rw [accuracyCheck_fst, latencyCheck_fst, convergenceCheck_fst, predictionCheck_fst]
  · norm_num [cognitiveHealthScore, accuracyCheck, latencyCheck, convergenceCheck,
      predictionCheck, healthExampleMetrics]
  · norm_num [getCognitiveSystemHealth, cognitiveHealthScore, accuracyCheck, latencyCheck,
      convergenceCheck, predictionCheck, healthExampleMetrics]

/-! ### Code analytics: architecture quality (code-analytics-service-impl.ts) -/

/-- Source `ArchitectureQualityMetrics` (analytics-types). -/
structure ArchitectureQualityMetrics where
  modularity : ℚ
  cohesion : ℚ
  coupling : ℚ
  maintainability : ℚ
  testability : ℚ
  overallScore : ℚ
  weakPoints : List String
  strengths : List String
deriving DecidableEq

/-- Modularity classification of `assessArchitectureQuality` (line 132-133):
(weak-point entries, strength entries). -/
def modularityAssessment (x : ℚ) : List String × List String :=
  if x < 60 then (["Low modularity - consider breaking down large modules"], [])
  else if 80 < x then ([], ["Excellent modularity"])
  else ([], [])

/-- Cohesion classification (lines 135-136). -/
def cohesionAssessment (x : ℚ) : List String × List String :=
  if x < 60 then (["Low cohesion - modules have too many unrelated responsibilities"], [])
  else if 80 < x then ([], ["High cohesion - well-focused modules"])
  else ([], [])

/-- Coupling classification (lines 138-139); note the source thresholds are
40 / 20 here, not 60 / 80. -/
def couplingAssessment (x : ℚ) : List String × List String :=
  if 40 < x then (["High coupling - modules are too interdependent"], [])
  else if x < 20 then ([], ["Low coupling - good separation of concerns"])
  else ([], [])

/-- Maintainability classification (lines 141-142). -/
def maintainabilityAssessment (x : ℚ) : List String × List String :=
  if x < 60 then (["Low maintainability - code is difficult to modify"], [])
  else if 80 < x then ([], ["High maintainability"])
  else ([], [])

/-- Testability classification (lines 144-145). -/
def testabilityAssessment (x : ℚ) : List String × List String :=
  if x < 60 then (["Low testability - code is difficult to test"], [])
  else if 80 < x then ([], ["High testability"])
  else ([], [])

/-- Source `assessArchitectureQuality` (lines 117-157), parameterized by the five
collaborator-supplied sub-scores (the source's `calculate*` helpers are
simulated constants standing in for external analysis). -/
def assessArchitectureQuality (modularity cohesion coupling maintainability testability : ℚ) :
    ArchitectureQualityMetrics :=
  { modularity := modularity
    cohesion := cohesion
    coupling := coupling
    maintainability := maintainability
    testability := testability
    overallScore := (modularity + cohesion + (100 - coupling) + maintainability + testability) / 5
    weakPoints :=
      (modularityAssessment modularity).1 ++ (cohesionAssessment cohesion).1
        ++ (couplingAssessment coupling).1 ++ (maintainabilityAssessment maintainability).1
        ++ (testabilityAssessment testability).1
    strengths :=
      (modularityAssessment modularity).2 ++ (cohesionAssessment cohesion).2
        ++ (couplingAssessment coupling).2 ++ (maintainabilityAssessment maintainability).2
        ++ (testabilityAssessment testability).2 }

lemma modularityAssessment_fst (x : ℚ) :
    (modularityAssessment x).1 =
      if x < 60 then ["Low modularity - consider breaking down large modules"] else [] := by
  unfold modularityAssessment
  split_ifs <;> rfl

lemma modularityAssessment_snd (x : ℚ) :
    (modularityAssessment x).2 = if 80 < x then ["Excellent modularity"] else [] := by
  unfold modularityAssessment
  split_ifs with h1 h2 <;> first | rfl | linarith

lemma cohesionAssessment_fst (x : ℚ) :
    (cohesionAssessment x).1 =
      if x < 60 then ["Low cohesion - modules have too many unrelated responsibilities"]
      else [] := by
  unfold cohesionAssessment
  split_ifs <;> rfl

lemma cohesionAssessment_snd (x : ℚ) :
    (cohesionAssessment x).2 = if 80 < x then ["High cohesion - well-focused modules"] else [] := by
  unfold cohesionAssessment
  split_ifs with h1 h2 <;> first | rfl | linarith

lemma couplingAssessment_fst (x : ℚ) :
    (couplingAssessment x).1 =
      if 40 < x then ["High coupling - modules are too interdependent"] else [] := by
  unfold couplingAssessment
  split_ifs <;> rfl

lemma couplingAssessment_snd (x : ℚ) :
    (couplingAssessment x).2 =
      if x < 20 then ["Low coupling - good separation of concerns"] else [] := by
  unfold couplingAssessment
  split_ifs with h1 h2 <;> first | rfl | linarith

lemma maintainabilityAssessment_fst (x : ℚ) :
    (maintainabilityAssessment x).1 =
      if x < 60 then ["Low maintainability - code is difficult to modify"] else [] := by
  unfold maintainabilityAssessment
  split_ifs <;> rfl

lemma maintainabilityAssessment_snd (x : ℚ) :
    (maintainabilityAssessment x).2 = if 80 < x then ["High maintainability"] else [] := by
  unfold maintainabilityAssessment
  split_ifs with h1 h2 <;> first | rfl | linarith

lemma testabilityAssessment_fst (x : ℚ) :
    (testabilityAssessment x).1 =
      if x < 60 then ["Low testability - code is difficult to test"] else [] := by
  unfold testabilityAssessment
  split_ifs <;> rfl

lemma testabilityAssessment_snd (x : ℚ) :
    (testabilityAssessment x).2 = if 80 < x then ["High testability"] else [] := by
  unfold testabilityAssessment
  split_ifs with h1 h2 <;> first | rfl | linarith

/-- C3 counterexample: the claim says every sub-score below 60 adds a
weak-point entry, but for coupling the source uses the 40 / 20 thresholds:
with coupling = 30 (< 60, and inside the source's [20, 40] coupling dead
zone) and all other sub-scores at 70, no entry at all is produced. -/
theorem assessArchitectureQuality_coupling_counterexample :
    (30 : ℚ) < 60
    ∧ (assessArchitectureQuality 70 70 30 70 70).weakPoints = []
    ∧ (assessArchitectureQuality 70 70 30 70 70).strengths = [] := by
  refine ⟨by norm_num, ?_, ?_⟩ <;>
    norm_num [assessArchitectureQuality, modularityAssessment, cohesionAssessment,
      couplingAssessment, maintainabilityAssessment, testabilityAssessment]

/-- C3 (amended): modularity, cohesion, maintainability and testability
follow the < 60 → weak point / > 80 → strength / [60, 80] → neither rule;
coupling (lower is better) instead uses > 40 → weak point / < 20 →
strength / [20, 40] → neither.  In particular modularity = 55 yields
exactly the modularity weak-point entry, and with modularity = 70 (and at
the 60 and 80 boundaries) neither list has a modularity entry. -/
theorem assessArchitectureQuality_classification
    (modularity cohesion coupling maintainability testability : ℚ) :
    (assessArchitectureQuality modularity cohesion coupling maintainability
        testability).weakPoints =
      (if modularity < 60 then ["Low modularity - consider breaking down large modules"] else [])
        ++ (if cohesion < 60 then
              ["Low cohesion - modules have too many unrelated responsibilities"] else [])
        ++ (if 40 < coupling then ["High coupling - modules are too interdependent"] else [])
        ++ (if maintainability < 60 then
              ["Low maintainability - code is difficult to modify"] else [])
        ++ (if testability < 60 then ["Low testability - code is difficult to test"] else [])
    ∧ (assessArchitectureQuality modularity cohesion coupling maintainability
          testability).strengths =
        (if 80 < modularity then ["Excellent modularity"] else [])
          ++ (if 80 < cohesion then ["High cohesion - well-focused modules"] else [])
          ++ (if coupling < 20 then ["Low coupling - good separation of concerns"] else [])
          ++ (if 80 < maintainability then ["High maintainability"] else [])
          ++ (if 80 < testability then ["High testability"] else [])
    ∧ (assessArchitectureQuality 55 70 30 70 70).weakPoints =
        ["Low modularity - consider breaking down large modules"]
    ∧ (assessArchitectureQuality 55 70 30 70 70).strengths = []
    ∧ (assessArchitectureQuality 70 70 30 70 70).weakPoints = []
    ∧ (assessArchitectureQuality 70 70 30 70 70).strengths = []
    ∧ (assessArchitectureQuality 60 60 30 60 60).weakPoints = []
    ∧ (assessArchitectureQuality 80 80 30 80 80).strengths = [] := by
  refine ⟨?_, ?_, ?_, ?_, ?_, ?_, ?_, ?_⟩
  · show _ ++ _ ++ _ ++ _ ++ _ = _
    rw [modularityAssessment_fst, cohesionAssessment_fst, couplingAssessment_fst,
      maintainabilityAssessment_fst, testabilityAssessment_fst]
  · show _ ++ _ ++ _ ++ _ ++ _ = _
    rw [modularityAssessment_snd, cohesionAssessment_snd, couplingAssessment_snd,
      maintainabilityAssessment_snd, testabilityAssessment_snd]
  all_goals
    norm_num [assessArchitectureQuality, modularityAssessment, cohesionAssessment,
      couplingAssessment, maintainabilityAssessment, testabilityAssessment]

/-! ### Code analytics: composite quality score -/

/-- Source `getCodeQualityScore` (lines 296-314), parameterized by the five
collaborator-supplied sub-scores (`getComplexityScore` etc. are simulated
constants standing in for external analysis); the weighted average is
written exactly as in the source. -/
def getCodeQualityScore (complexity duplication coverage documentation styleCompliance : ℚ) : ℚ :=
  complexity * 0.25 + duplication * 0.2 + coverage * 0.25 + documentation * 0.15
    + styleCompliance * 0.15

/-- C6: `getCodeQualityScore` equals the exact weighted sum
0.25·complexity + 0.20·duplication + 0.25·coverage + 0.15·documentation
+ 0.15·style for sub-scores in [0, 100]; the weights sum to exactly 1, and
the composite stays in [0, 100]. -/
theorem getCodeQualityScore_weighted_sum (c d cov doc st : ℚ)
    (hc : 0 ≤ c ∧ c ≤ 100) (hd : 0 ≤ d ∧ d ≤ 100) (hcov : 0 ≤ cov ∧ cov ≤ 100)
    (hdoc : 0 ≤ doc ∧ doc ≤ 100) (hst : 0 ≤ st ∧ st ≤ 100) :
    getCodeQualityScore c d cov doc st
        = 0.25 * c + 0.20 * d + 0.25 * cov + 0.15 * doc + 0.15 * st
    ∧ (0.25 + 0.20 + 0.25 + 0.15 + 0.15 : ℚ) = 1
    ∧ 0 ≤ getCodeQualityScore c d cov doc st
    ∧ getCodeQualityScore c d cov doc st ≤ 100 := by
  obtain ⟨hc0, hc1⟩ := hc
  obtain ⟨hd0, hd1⟩ := hd
  obtain ⟨hcov0, hcov1⟩ := hcov
  obtain ⟨hdoc0, hdoc1⟩ := hdoc
  obtain ⟨hst0, hst1⟩ := hst
  refine ⟨by unfold getCodeQualityScore; ring, by norm_num, ?_, ?_⟩ <;>
    · unfold getCodeQualityScore
      norm_num
      nlinarith

/-- C6 witness: instantiation at the source's simulated sub-scores
(75, 80, 70, 65, 85). -/
theorem getCodeQualityScore_weighted_sum_witness :
    ((0 : ℚ) ≤ 75 ∧ (75 : ℚ) ≤ 100) ∧ ((0 : ℚ) ≤ 80 ∧ (80 : ℚ) ≤ 100)
    ∧ ((0 : ℚ) ≤ 70 ∧ (70 : ℚ) ≤ 100) ∧ ((0 : ℚ) ≤ 65 ∧ (65 : ℚ) ≤ 100)
    ∧ ((0 : ℚ) ≤ 85 ∧ (85 : ℚ) ≤ 100)
    ∧ (getCodeQualityScore 75 80 70 65 85
          = 0.25 * 75 + 0.20 * 80 + 0.25 * 70 + 0.15 * 65 + 0.15 * 85
        ∧ (0.25 + 0.20 + 0.25 + 0.15 + 0.15 : ℚ) = 1
        ∧ 0 ≤ getCodeQualityScore 75 80 70 65 85
        ∧ getCodeQualityScore 75 80 70 65 85 ≤ 100) :=
  ⟨⟨by norm_num, by norm_num⟩, ⟨by norm_num, by norm_num⟩, ⟨by norm_num, by norm_num⟩,
    ⟨by norm_num, by norm_num⟩, ⟨by norm_num, by norm_num⟩,
    getCodeQualityScore_weighted_sum 75 80 70 65 85 ⟨by norm_num, by norm_num⟩
      ⟨by norm_num, by norm_num⟩ ⟨by norm_num, by norm_num⟩ ⟨by norm_num, by norm_num⟩
      ⟨by norm_num, by norm_num⟩⟩

/-! ### Code analytics: evolution history and age-based pruning -/

/-- Source `CodeEvolutionMetrics` (analytics-types). -/
structure CodeEvolutionMetrics where
  timestamp : ℤ
  linesAdded : ℕ
  linesRemoved : ℕ
  linesModified : ℕ
  filesChanged : ℕ
  complexityDelta : ℤ
  codeQualityScore : ℚ
deriving DecidableEq

/-- Source `HISTORY_RETENTION_DAYS * 24 * 60 * 60 * 1000` with the source's
90-day retention (line 39 and 354), in milliseconds. -/
def HISTORY_RETENTION_MS : ℤ := 90 * 24 * 60 * 60 * 1000

/-- Source `captureCurrentMetrics` (lines 340-351): a zeroed snapshot at the
current time with the simulated quality score 75. -/
def captureCurrentMetrics (now : ℤ) : CodeEvolutionMetrics :=
  { timestamp := now
    linesAdded := 0
    linesRemoved := 0
    linesModified := 0
    filesChanged := 0
    complexityDelta := 0
    codeQualityScore := 75 }

/-- JavaScript `Array.prototype.findIndex`: index of the first element
satisfying the predicate, or -1. -/
def jsFindIndex (p : α → Prop) [DecidablePred p] : List α → ℤ
  | [] => -1
  | a :: as =>
    if p a then 0
    else if jsFindIndex p as = -1 then -1 else jsFindIndex p as + 1

lemma jsFindIndex_cons (p : α → Prop) [DecidablePred p] (a : α) (as : List α) :
    jsFindIndex p (a :: as) =
      if p a then 0
      else if jsFindIndex p as = -1 then -1 else jsFindIndex p as + 1 := by
  rfl

/-- Source `pruneOldMetrics` (lines 353-359): `cutoffTime` is now minus the
retention window, and `splice(0, index)` removes the first `index`
elements, applied only when `index > 0`. -/
def pruneOldMetrics (metrics : List CodeEvolutionMetrics) (now : ℤ) :
    List CodeEvolutionMetrics :=
  if 0 < jsFindIndex (fun m => now - HISTORY_RETENTION_MS ≤ m.timestamp) metrics then
    metrics.drop
      (jsFindIndex (fun m => now - HISTORY_RETENTION_MS ≤ m.timestamp) metrics).toNat
  else metrics

/-- Source `trackCodeEvolution` (lines 52-69) for one workspace: append a fresh
snapshot to the stored history, prune old entries, return the history. -/
def trackCodeEvolution (history : List CodeEvolutionMetrics) (now : ℤ) :
    List CodeEvolutionMetrics :=
  pruneOldMetrics (history ++ [captureCurrentMetrics now]) now

lemma jsFindIndex_nonneg_of_exists {p : α → Prop} [DecidablePred p] :
    ∀ {l : List α}, (∃ x ∈ l, p x) → 0 ≤ jsFindIndex p l
  | [], h => absurd h (by simp)
  | a :: as, h => by
    rw [jsFindIndex_cons]
    by_cases ha : p a
    · rw [if_pos ha]
    · rw [if_neg ha]
      have has : ∃ x ∈ as, p x := by
        rcases h with ⟨x, hx, hpx⟩
        rcases List.mem_cons.1 hx with rfl | hx'
        · exact absurd hpx ha
        · exact ⟨x, hx', hpx⟩
      have hr := jsFindIndex_nonneg_of_exists has
      have hne : jsFindIndex p as ≠ -1 := by omega
      rw [if_neg hne]
      omega

/-- On a history whose prefix is chronologically ordered and whose last
element is fresh, `pruneOldMetrics` leaves only fresh entries. -/
lemma pruneOldMetrics_append_sound :
    ∀ (h : List CodeEvolutionMetrics) (c : CodeEvolutionMetrics) (now : ℤ),
      List.Pairwise (fun a b => a.timestamp ≤ b.timestamp) h →
      now - HISTORY_RETENTION_MS ≤ c.timestamp →
      ∀ m ∈ pruneOldMetrics (h ++ [c]) now, now - HISTORY_RETENTION_MS ≤ m.timestamp
  | [], c, now, _, hc => by
    intro m hm
    unfold pruneOldMetrics at hm
    rw [List.nil_append, jsFindIndex_cons, if_pos hc, if_neg (lt_irrefl 0)] at hm
    obtain rfl := List.mem_singleton.1 hm
    exact hc
  | a :: h, c, now, hsorted, hc => by
    rw [List.pairwise_cons] at hsorted
    obtain ⟨ha_le, hsorted'⟩ := hsorted
    by_cases hpa : now - HISTORY_RETENTION_MS ≤ a.timestamp
    · -- fresh head: index 0, nothing pruned, and chronological order makes
      -- every later history element fresh too
      intro m hm
      unfold pruneOldMetrics at hm
      rw [List.cons_append, jsFindIndex_cons, if_pos hpa, if_neg (lt_irrefl 0)] at hm
      rcases List.mem_cons.1 hm with rfl | hm'
      · exact hpa
      · rcases List.mem_append.1 hm' with hm'' | hm''
        · exact le_trans hpa (ha_le m hm'')
        · obtain rfl := List.mem_singleton.1 hm''
          exact hc
    · -- stale head: the search continues in the tail, which contains the
      -- fresh `c`, so the index is the tail index plus one
      have hex : ∃ x ∈ h ++ [c], now - HISTORY_RETENTION_MS ≤ x.timestamp :=
        ⟨c, List.mem_append_right h (List.mem_singleton_self c), hc⟩
      have hr0 : 0 ≤ jsFindIndex (fun m => now - HISTORY_RETENTION_MS ≤ m.timestamp)
          (h ++ [c]) := jsFindIndex_nonneg_of_exists hex
      set r := jsFindIndex (fun m => now - HISTORY_RETENTION_MS ≤ m.timestamp) (h ++ [c])
        with hrdef
      have hrne : r ≠ -1 := by omega
      intro m hm
      unfold pruneOldMetrics at hm
      rw [List.cons_append, jsFindIndex_cons, if_neg hpa, ← hrdef, if_neg hrne,
        if_pos (by omega : (0 : ℤ) < r + 1)] at hm
      rw [(by omega : (r + 1).toNat = r.toNat + 1), List.drop_succ_cons] at hm
      have ih := pruneOldMetrics_append_sound h c now hsorted' hc
      rcases lt_or_eq_of_le hr0 with hrpos | hrzero
      · apply ih
        unfold pruneOldMetrics
        rw [← hrdef, if_pos hrpos]
        exact hm
      · apply ih
        unfold pruneOldMetrics
        rw [← hrdef, if_neg (by omega : ¬ (0 : ℤ) < r)]
        rw [(by omega : r.toNat = 0), List.drop_zero] at hm
        exact hm

/-- C4 counterexample: the prune only removes a prefix, so from a
non-chronological prior history a stale snapshot survives.  With
`T = HISTORY_RETENTION_MS + 1` and prior history `[⟨T⟩, ⟨0⟩]`, calling
`trackCodeEvolution` at time `T` retains the timestamp-0 snapshot, which
is older than the 90-day window. -/
theorem trackCodeEvolution_unsorted_counterexample :
    captureCurrentMetrics 0
        ∈ trackCodeEvolution
            [captureCurrentMetrics (HISTORY_RETENTION_MS + 1), captureCurrentMetrics 0]
            (HISTORY_RETENTION_MS + 1)
    ∧ (captureCurrentMetrics 0).timestamp
        < (HISTORY_RETENTION_MS + 1) - HISTORY_RETENTION_MS := by
  constructor
  · have hstep : trackCodeEvolution
        [captureCurrentMetrics (HISTORY_RETENTION_MS + 1), captureCurrentMetrics 0]
        (HISTORY_RETENTION_MS + 1)
        = [captureCurrentMetrics (HISTORY_RETENTION_MS + 1), captureCurrentMetrics 0,
            captureCurrentMetrics (HISTORY_RETENTION_MS + 1)] := by
      have hfi : jsFindIndex
          (fun m => HISTORY_RETENTION_MS + 1 - HISTORY_RETENTION_MS ≤ m.timestamp)
          [captureCurrentMetrics (HISTORY_RETENTION_MS + 1), captureCurrentMetrics 0,
            captureCurrentMetrics (HISTORY_RETENTION_MS + 1)] = 0 := by
        rw [jsFindIndex_cons,
          if_pos (by norm_num [captureCurrentMetrics, HISTORY_RETENTION_MS])]
      unfold trackCodeEvolution pruneOldMetrics
      simp only [List.cons_append, List.nil_append]
      rw [hfi, if_neg (lt_irrefl 0)]
    rw [hstep]
    simp
  · norm_num [captureCurrentMetrics]

/-- C4 (amended): for every prior history whose snapshots are in
chronological (non-decreasing timestamp) order — as all histories the
engine itself builds are — after `trackCodeEvolution` returns, no retained
snapshot is older than the 90-day retention window. -/
theorem trackCodeEvolution_retention (history : List CodeEvolutionMetrics) (now : ℤ)
    (hsorted : List.Pairwise (fun a b => a.timestamp ≤ b.timestamp) history) :
    (trackCodeEvolution history now).all
      (fun m => decide (now - HISTORY_RETENTION_MS ≤ m.timestamp)) = true := by
  rw [List.all_eq_true]
  intro m hm
  refine decide_eq_true (pruneOldMetrics_append_sound history (captureCurrentMetrics now)
    now hsorted ?_ m hm)
  norm_num [captureCurrentMetrics, HISTORY_RETENTION_MS]

/-- C4 witness: a concrete chronologically ordered two-snapshot history. -/
theorem trackCodeEvolution_retention_witness :
    List.Pairwise (fun a b => a.timestamp ≤ b.timestamp)
      [captureCurrentMetrics 5, captureCurrentMetrics 6]
    ∧ (trackCodeEvolution [captureCurrentMetrics 5, captureCurrentMetrics 6] 7).all
        (fun m => decide (7 - HISTORY_RETENTION_MS ≤ m.timestamp)) = true :=
  ⟨by simp [captureCurrentMetrics],
    trackCodeEvolution_retention [captureCurrentMetrics 5, captureCurrentMetrics 6] 7
      (by simp [captureCurrentMetrics])⟩

/-! ### Insight generation (insight-generation-service-impl.ts) -/

/-- Severity / risk-level values (`'critical' | 'high' | 'medium' | 'low'`). -/
inductive Severity where
  | critical
  | high
  | medium
  | low
deriving DecidableEq, BEq

/-- Insight priority values (`'critical' | 'high' | 'medium' | 'low'`). -/
inductive InsightPriority where
  | critical
  | high
  | medium
  | low
deriving DecidableEq, BEq

/-- Insight category values. -/
inductive InsightCategory where
  | performance
  | quality
  | productivity
  | collaboration
  | security
deriving DecidableEq, BEq

/-- Source `GeneratedInsight` (analytics-types); the opaque `supportingData`
record is omitted. -/
structure GeneratedInsight where
  id : String
  category : InsightCategory
  title : String
  description : String
  priority : InsightPriority
  impact : ℚ
  confidence : ℚ
  recommendations : List String
  timestamp : ℤ
deriving DecidableEq, BEq

/-- Source `DebtIssue` (analytics-types); `category` is its five-value string
union. -/
structure DebtIssue where
  id : String
  category : String
  severity : Severity
  location : String
  description : String
  estimatedEffort : ℚ
  impact : ℚ
deriving DecidableEq

/-- Debt trend values. -/
inductive DebtTrend where
  | increasing
  | decreasing
  | stable
deriving DecidableEq

/-- Source `TechnicalDebtAnalysis` (analytics-types); `debtByCategory` as an
association list. -/
structure TechnicalDebtAnalysis where
  totalDebt : ℚ
  debtByCategory : List (String × ℚ)
  criticalIssues : List DebtIssue
  recommendations : List String
  trend : DebtTrend
deriving DecidableEq

/-- Source `PerformanceBottleneckPrediction` (analytics-types); `type` is its
four-value string union. -/
structure PerformanceBottleneckPrediction where
  location : String
  type : String
  severity : Severity
  description : String
  estimatedImpact : ℚ
  recommendations : List String
deriving DecidableEq, BEq

/-- Source `RefactoringOpportunity` (analytics-types); `type` is its five-value
string union and `priority` its three-value priority union. -/
structure RefactoringOpportunity where
  id : String
  type : String
  location : String
  description : String
  benefit : ℚ
  effort : ℚ
  priority : InsightPriority
deriving DecidableEq, BEq

/-- Source `SecurityRiskAssessment` (analytics-types). -/
structure SecurityRiskAssessment where
  riskLevel : Severity
  vulnerabilityTypes : List String
  affectedAreas : List String
  recommendations : List String
  cvssScore : ℚ
deriving DecidableEq

/-- String form of a health status, as interpolated into descriptions. -/
def healthStatusString : HealthStatus → String
  | HealthStatus.healthy => "healthy"
  | HealthStatus.degraded => "degraded"
  | HealthStatus.critical => "critical"

/-- Source `riskLevel.toUpperCase()` over the four risk levels. -/
def severityUpper : Severity → String
  | Severity.critical => "CRITICAL"
  | Severity.high => "HIGH"
  | Severity.medium => "MEDIUM"
  | Severity.low => "LOW"

/-- JavaScript `toFixed(0)` on the benefit averages, modelled as rounding
to the nearest integer (the engine only interpolates it into a
description string). -/
def jsToFixed0 (q : ℚ) : String := toString (round q)

/-- Source `generatePerformanceInsights` (lines 143-187).  `now` stands for the
`Date.now()` calls of this invocation; the cognitive-health report and the
bottleneck predictions are the collaborator responses. -/
def generatePerformanceInsights (cognitiveHealth : HealthReport)
    (bottlenecks : List PerformanceBottleneckPrediction) (now : ℤ) : List GeneratedInsight :=
  (if cognitiveHealth.status = HealthStatus.degraded
      ∨ cognitiveHealth.status = HealthStatus.critical then
    [{ id := "perf-" ++ toString now ++ "-1"
       category := InsightCategory.performance
       title := "Cognitive System Performance Degradation Detected"
       description := "The cognitive system is experiencing "
         ++ healthStatusString cognitiveHealth.status ++ " performance. "
         ++ String.intercalate ". " cognitiveHealth.issues
       priority := if cognitiveHealth.status = HealthStatus.critical then
         InsightPriority.critical else InsightPriority.high
       impact := 85
       confidence := 92/100
       recommendations := cognitiveHealth.recommendations
       timestamp := now }]
  else []) ++
  (if bottlenecks.length > 0 then
    match bottlenecks.filter
        (fun b => b.severity == Severity.critical || b.severity == Severity.high) with
    | [] => []
    | b0 :: bs =>
      [{ id := "perf-" ++ toString now ++ "-2"
         category := InsightCategory.performance
         title := toString (b0 :: bs).length ++ " Performance Bottleneck(s) Identified"
         description :=
           "Critical performance issues detected that could impact application responsiveness. "
             ++ b0.description
         priority := InsightPriority.high
         impact := 75
         confidence := 85/100
         recommendations := b0.recommendations
         timestamp := now }]
  else [])

/-- String form of a debt trend, as interpolated into descriptions. -/
def debtTrendString : DebtTrend → String
  | DebtTrend.increasing => "increasing"
  | DebtTrend.decreasing => "decreasing"
  | DebtTrend.stable => "stable"

/-- Source `generateQualityInsights` (lines 189-227). -/
def generateQualityInsights (debtAnalysis : TechnicalDebtAnalysis) (now : ℤ) :
    List GeneratedInsight :=
  (if debtAnalysis.totalDebt > 40 then
    [{ id := "quality-" ++ toString now ++ "-1"
       category := InsightCategory.quality
       title := "High Technical Debt Detected"
       description := "Current technical debt is estimated at "
         ++ toString debtAnalysis.totalDebt ++ " hours. Trend is "
         ++ debtTrendString debtAnalysis.trend ++ "."
       priority := if debtAnalysis.totalDebt > 80 then
         InsightPriority.critical else InsightPriority.high
       impact := min 100 debtAnalysis.totalDebt
       confidence := 88/100
       recommendations := debtAnalysis.recommendations
       timestamp := now }]
  else []) ++
  (match debtAnalysis.criticalIssues with
  | [] => []
  | issue0 :: rest =>
    [{ id := "quality-" ++ toString now ++ "-2"
       category := InsightCategory.quality
       title := toString (issue0 :: rest).length ++ " Critical Quality Issue(s) Found"
       description := "Critical issues requiring immediate attention: " ++ issue0.description
       priority := InsightPriority.critical
       impact := 90
       confidence := 95/100
       recommendations := ["Fix critical issue in " ++ issue0.location]
       timestamp := now }])

/-- Source `generateProductivityInsights` (lines 229-259). -/
def generateProductivityInsights (refactoringOps : List RefactoringOpportunity) (now : ℤ) :
    List GeneratedInsight :=
  match refactoringOps.filter (fun op => op.priority == InsightPriority.high) with
  | [] => []
  | op0 :: rest =>
    let highPriorityOps := op0 :: rest
    let totalBenefit := (highPriorityOps.map (fun op => op.benefit)).sum
    let avgBenefit := totalBenefit / highPriorityOps.length
    [{ id := "productivity-" ++ toString now ++ "-1"
       category := InsightCategory.productivity
       title := toString highPriorityOps.length ++ " High-Value Refactoring Opportunit"
         ++ (if highPriorityOps.length = 1 then "y" else "ies")
       description := "Refactoring opportunities with average benefit score of "
         ++ jsToFixed0 avgBenefit ++ "%. " ++ op0.description
       priority := InsightPriority.medium
       impact := avgBenefit
       confidence := 82/100
       recommendations := ["Start with " ++ op0.type ++ " refactoring at " ++ op0.location,
         "Allocate time for systematic technical improvement"]
       timestamp := now }]

/-- Source `generateSecurityInsights` (lines 261-283). -/
def generateSecurityInsights (securityRisks : SecurityRiskAssessment) (now : ℤ) :
    List GeneratedInsight :=
  if securityRisks.riskLevel = Severity.critical ∨ securityRisks.riskLevel = Severity.high then
    [{ id := "security-" ++ toString now ++ "-1"
       category := InsightCategory.security
       title := severityUpper securityRisks.riskLevel ++ " Security Risk Detected"
       description := "Security vulnerabilities found: "
         ++ String.intercalate ", " securityRisks.vulnerabilityTypes
       priority := if securityRisks.riskLevel = Severity.critical then
         InsightPriority.critical else InsightPriority.high
       impact := 95
       confidence := 9/10
       recommendations := securityRisks.recommendations
       timestamp := now }]
  else []

/-- The collaborator responses and clock readings one `generateInsights()`
pass consumes (each generator's `Date.now()` calls are its own `now`
parameter). -/
structure AnalyticsEnv where
  cognitiveHealth : HealthReport
  bottlenecks : List PerformanceBottleneckPrediction
  debtAnalysis : TechnicalDebtAnalysis
  refactoringOps : List RefactoringOpportunity
  securityRisks : SecurityRiskAssessment
  nowPerf : ℤ
  nowQual : ℤ
  nowProd : ℤ
  nowSec : ℤ

/-- Source `generateInsights` (lines 37-52): the four category generators in
source order (the collaboration generator is reserved and returns no
insights). -/
def generateInsights (env : AnalyticsEnv) : List GeneratedInsight :=
  generatePerformanceInsights env.cognitiveHealth env.bottlenecks env.nowPerf
    ++ generateQualityInsights env.debtAnalysis env.nowQual
    ++ generateProductivityInsights env.refactoringOps env.nowProd
    ++ generateSecurityInsights env.securityRisks env.nowSec

/-- The `priorityWeight` table of `getPrioritizedInsights` (line 77). -/
def priorityWeight : InsightPriority → ℚ
  | InsightPriority.critical => 4
  | InsightPriority.high => 3
  | InsightPriority.medium => 2
  | InsightPriority.low => 1

/-- The comparator key of `getPrioritizedInsights` (lines 80-81):
`priorityWeight[priority] * impact * confidence`. -/
def insightScore (i : GeneratedInsight) : ℚ :=
  priorityWeight i.priority * i.impact * i.confidence

/-- Stable insertion step: `x` passes over strictly higher-scored elements
and lands before the first element whose score is ≤ its own, so elements
with equal scores keep their original relative order. -/
def insertByScore (x : GeneratedInsight) : List GeneratedInsight → List GeneratedInsight
  | [] => [x]
  | y :: ys =>
    if insightScore x < insightScore y then y :: insertByScore x ys else x :: y :: ys

/-- Source `allInsights.sort((a, b) => bScore - aScore)` (lines 79-83):
JavaScript `Array.prototype.sort` is stable and this comparator is the
consistent descending order on `insightScore`, so the call is a stable
descending sort by score. -/
def sortByScoreDesc (l : List GeneratedInsight) : List GeneratedInsight :=
  l.foldr insertByScore []

/-- Source `getPrioritizedInsights` (lines 73-86): regenerate, sort by descending
score, return the first `limit`. -/
def getPrioritizedInsights (env : AnalyticsEnv) (limit : ℕ) : List GeneratedInsight :=
  (sortByScoreDesc (generateInsights env)).take limit

/-- Source `acknowledgeInsight` (lines 101-103): `Set.add`. -/
def acknowledgeInsight (acknowledgedInsights : Finset String) (insightId : String) :
    Finset String :=
  insert insightId acknowledgedInsights

/-- Source `getPersonalizedInsights` (lines 88-99): regenerate, drop acknowledged
ids, return the first 5.  The `userId` argument is never read. -/
def getPersonalizedInsights (userId : String) (env : AnalyticsEnv)
    (acknowledgedInsights : Finset String) : List GeneratedInsight :=
  ((generateInsights env).filter
    (fun insight => decide (insight.id ∉ acknowledgedInsights))).take 5

/-- One feedback record of `provideInsightFeedback` (line 110). -/
structure FeedbackRecord where
  helpful : Bool
  comment : Option String
deriving DecidableEq

/-- The counting pass of `getInsightAcceptanceRate` (lines 113-124): the
nested `forEach` over the per-insight feedback lists accumulating
`(totalFeedback, helpfulCount)`. -/
def feedbackCounts (insightFeedback : List (List FeedbackRecord)) : ℕ × ℕ :=
  insightFeedback.foldl
    (fun counts feedbackList =>
      feedbackList.foldl
        (fun c feedback => (c.1 + 1, if feedback.helpful then c.2 + 1 else c.2)) counts)
    (0, 0)

/-- Source `getInsightAcceptanceRate` (lines 113-127):
`totalFeedback > 0 ? helpfulCount / totalFeedback : 0`. -/
def getInsightAcceptanceRate (insightFeedback : List (List FeedbackRecord)) : ℚ :=
  if 0 < (feedbackCounts insightFeedback).1 then
    ((feedbackCounts insightFeedback).2 : ℚ) / ((feedbackCounts insightFeedback).1 : ℚ)
  else 0

/-- Total number of stored feedback records. -/
def totalFeedbackCount (insightFeedback : List (List FeedbackRecord)) : ℕ :=
  (insightFeedback.map List.length).sum

/-- Number of stored feedback records marked helpful. -/
def helpfulFeedbackCount (insightFeedback : List (List FeedbackRecord)) : ℕ :=
  (insightFeedback.map (fun l => (l.filter (fun r => r.helpful)).length)).sum

/-- Source `this.generatedInsights.set(insight.id, insight)` (lines 47-49) on an
insertion-ordered map: replace in place when the key exists, append
otherwise. -/
def insightStorePut (store : List (String × GeneratedInsight)) (insight : GeneratedInsight) :
    List (String × GeneratedInsight) :=
  if store.any (fun entry => entry.1 == insight.id) then
    store.map (fun entry => if entry.1 == insight.id then (insight.id, insight) else entry)
  else store ++ [(insight.id, insight)]

/-- Source `MAX_HISTORY_SIZE` (line 34). -/
def MAX_HISTORY_SIZE : ℕ := 1000

/-- The history update of `getCognitivePerformanceMetrics` (lines 58-62):
push the snapshot, then `shift()` the oldest entry when the bound is
exceeded. -/
def recordPerformanceSnapshot (performanceHistory : List CognitivePerformanceMetrics)
    (metrics : CognitivePerformanceMetrics) : List CognitivePerformanceMetrics :=
  if MAX_HISTORY_SIZE < (performanceHistory ++ [metrics]).length then
    (performanceHistory ++ [metrics]).tail
  else performanceHistory ++ [metrics]

lemma insertByScore_mem (x a : GeneratedInsight) :
    ∀ l : List GeneratedInsight, a ∈ insertByScore x l ↔ a = x ∨ a ∈ l
  | [] => by simp [insertByScore]
  | y :: ys => by
    unfold insertByScore
    by_cases h : insightScore x < insightScore y
    · rw [if_pos h]
      simp only [List.mem_cons, insertByScore_mem x a ys]
      tauto
    · rw [if_neg h]
      simp only [List.mem_cons]

lemma insertByScore_sorted (x : GeneratedInsight) :
    ∀ {l : List GeneratedInsight},
      List.Sorted (fun a b => insightScore b ≤ insightScore a) l →
      List.Sorted (fun a b => insightScore b ≤ insightScore a) (insertByScore x l)
  | [], _ => List.sorted_singleton x
  | y :: ys, h => by
    rw [List.sorted_cons] at h
    obtain ⟨hy, hys⟩ := h
    unfold insertByScore
    by_cases hxy : insightScore x < insightScore y
    · rw [if_pos hxy, List.sorted_cons]
      refine ⟨fun b hb => ?_, insertByScore_sorted x hys⟩
      rcases (insertByScore_mem x b ys).1 hb with rfl | hb'
      · exact le_of_lt hxy
      · exact hy b hb'
    · rw [if_neg hxy, List.sorted_cons]
      refine ⟨fun b hb => ?_, List.sorted_cons.2 ⟨hy, hys⟩⟩
      rcases List.mem_cons.1 hb with rfl | hb'
      · exact le_of_not_lt hxy
      · exact le_trans (hy b hb') (le_of_not_lt hxy)

lemma sortByScoreDesc_sorted :
    ∀ l : List GeneratedInsight,
      List.Sorted (fun a b => insightScore b ≤ insightScore a) (sortByScoreDesc l)
  | [] => List.sorted_nil
  | x :: xs => insertByScore_sorted x (sortByScoreDesc_sorted xs)

lemma insertByScore_filter_score (x : GeneratedInsight) (s : ℚ) :
    ∀ l : List GeneratedInsight,
      (insertByScore x l).filter (fun i => insightScore i == s)
        = if insightScore x == s then
            x :: l.filter (fun i => insightScore i == s)
          else l.filter (fun i => insightScore i == s)
  | [] => by
    by_cases hx : insightScore x == s
    · simp [insertByScore, List.filter, hx]
    · simp [insertByScore, List.filter, hx]
  | y :: ys => by
    unfold insertByScore
    by_cases hxy : insightScore x < insightScore y
    · rw [if_pos hxy]
      by_cases hx : insightScore x == s
      · -- x has the filtered score, so the strictly higher-scored y
        -- cannot: its filter test is false
        have hyne : (insightScore y == s) = false := by
          rw [beq_eq_false_iff_ne]
          intro hy
          rw [beq_iff_eq] at hx
          rw [hx, ← hy] at hxy
          exact lt_irrefl _ hxy
        rw [if_pos hx]
        rw [List.filter_cons_of_neg (by simp [hyne]), List.filter_cons_of_neg (by simp [hyne])]
        rw [insertByScore_filter_score x s ys, if_pos hx]
      · rw [if_neg hx]
        by_cases hy : insightScore y == s
        · rw [List.filter_cons_of_pos (by simp [hy]), List.filter_cons_of_pos (by simp [hy])]
          rw [insertByScore_filter_score x s ys, if_neg hx]
        · rw [List.filter_cons_of_neg (by simp [hy]), List.filter_cons_of_neg (by simp [hy])]
          rw [insertByScore_filter_score x s ys, if_neg hx]
    · rw [if_neg hxy]
      by_cases hx : insightScore x == s
      · rw [if_pos hx, List.filter_cons_of_pos (by simp [hx])]
      · rw [if_neg hx, List.filter_cons_of_neg (by simp [hx])]

lemma sortByScoreDesc_filter_score (s : ℚ) :
    ∀ l : List GeneratedInsight,
      (sortByScoreDesc l).filter (fun i => insightScore i == s)
        = l.filter (fun i => insightScore i == s)
  | [] => rfl
  | x :: xs => by
    show (insertByScore x (sortByScoreDesc xs)).filter _ = _
    rw [insertByScore_filter_score x s (sortByScoreDesc xs), sortByScoreDesc_filter_score s xs]
    by_cases hx : insightScore x == s
    · rw [if_pos hx, List.filter_cons_of_pos (by simp [hx])]
    · rw [if_neg hx, List.filter_cons_of_neg (by simp [hx])]

/-- C2 (amended): `getPrioritizedInsights(n)` returns at most `n`
insights, sorted in non-increasing order of
`priorityWeight[priority] * impact * confidence`; the sort is stable, so
insights with equal scores keep their generation order (for every score
value, filtering the sorted list down to that score yields exactly the
generation-order sublist) — the timestamp is not consulted as a
tie-break. -/
theorem getPrioritizedInsights_sorted_stable (env : AnalyticsEnv) (n : ℕ) :
    (getPrioritizedInsights env n).length ≤ n
    ∧ List.Sorted (fun a b => insightScore b ≤ insightScore a) (getPrioritizedInsights env n)
    ∧ ∀ s : ℚ, (sortByScoreDesc (generateInsights env)).filter (fun i => insightScore i == s)
        = (generateInsights env).filter (fun i => insightScore i == s) := by
  refine ⟨?_, ?_, fun s => sortByScoreDesc_filter_score s (generateInsights env)⟩
  · unfold getPrioritizedInsights
    rw [List.length_take]
    exact min_le_left _ _
  · unfold getPrioritizedInsights
    exact List.Pairwise.sublist (List.take_sublist _ _) (sortByScoreDesc_sorted _)

/-- An environment in which one generation pass emits two insights with
equal scores and distinct timestamps: a critical-quality insight
(4 × 90 × 0.95 = 342) at time 1000 and a critical-security insight
(4 × 95 × 0.9 = 342) at time 1001. -/
def tieEnv : AnalyticsEnv :=
  { cognitiveHealth := { status := HealthStatus.healthy, issues := [], recommendations := [] }
    bottlenecks := []
    debtAnalysis :=
      { totalDebt := 0
        debtByCategory := []
        criticalIssues :=
          [{ id := "debt-001"
             category := "security"
             severity := Severity.critical
             location := "src/auth/token-handler.ts"
             description := "Using deprecated cryptographic algorithm"
             estimatedEffort := 4
             impact := 95 }]
        recommendations := []
        trend := DebtTrend.stable }
    refactoringOps := []
    securityRisks :=
      { riskLevel := Severity.critical
        vulnerabilityTypes := ["Potential SQL injection in dynamic query construction"]
        affectedAreas := []
        recommendations := []
        cvssScore := 65/10 }
    nowPerf := 1000
    nowQual := 1000
    nowProd := 1000
    nowSec := 1001 }

/-- C2 counterexample: in `tieEnv` the two generated insights have equal
scores (342) but the returned order keeps the older timestamp (1000)
first — the comparator never consults the timestamp, so equal-score
insights are not ordered most-recent-first as claimed. -/
theorem getPrioritizedInsights_tiebreak_counterexample :
    (getPrioritizedInsights tieEnv 10).map (fun i => (insightScore i, i.timestamp))
      = [(342, 1000), (342, 1001)] := by
  simp [getPrioritizedInsights, tieEnv, generateInsights, generatePerformanceInsights,
    generateQualityInsights, generateProductivityInsights, generateSecurityInsights,
    sortByScoreDesc, insertByScore, insightScore, priorityWeight]
  split_ifs <;> norm_num at *

/-- A degraded-health collaborator response with no accumulated issue or
recommendation strings. -/
def degradedHealthReport : HealthReport :=
  { status := HealthStatus.degraded, issues := [], recommendations := [] }

/-- A critical-health collaborator response with no accumulated issue or
recommendation strings. -/
def criticalHealthReport : HealthReport :=
  { status := HealthStatus.critical, issues := [], recommendations := [] }

/-- C5 (the id scheme the code actually has): two `generateInsights`
invocations within the same `Date.now()` millisecond (here 0), one seeing
degraded and one seeing critical cognitive health, both label their
performance insight `perf-0-1` — the trailing discriminator is the fixed
literal `1`, not a monotonic counter — so the two distinct insights (their
priorities differ: high vs critical) collide, and inserting both into the
id-keyed store leaves a single entry (the second overwrites the first). -/
theorem insightId_collision_bug :
    (generatePerformanceInsights degradedHealthReport [] 0).map (fun i => i.id) = ["perf-0-1"]
    ∧ (generatePerformanceInsights criticalHealthReport [] 0).map (fun i => i.id) = ["perf-0-1"]
    ∧ (generatePerformanceInsights degradedHealthReport [] 0).map (fun i => i.priority)
        = [InsightPriority.high]
    ∧ (generatePerformanceInsights criticalHealthReport [] 0).map (fun i => i.priority)
        = [InsightPriority.critical]
    ∧ ((generatePerformanceInsights degradedHealthReport [] 0
          ++ generatePerformanceInsights criticalHealthReport [] 0).foldl
            insightStorePut []).length = 1 := by
  refine ⟨by decide, by decide, ?_, ?_, by decide⟩ <;>
    simp [generatePerformanceInsights, degradedHealthReport, criticalHealthReport]

/-! ### Acknowledgment, personalization, feedback -/

/-- C9: `acknowledgeInsight` is idempotent: acknowledging the same id
twice leaves the acknowledged set — hence its size — identical to the
state after the first call, and the id is a member afterwards. -/
theorem acknowledgeInsight_idempotent (acknowledged : Finset String) (insightId : String) :
    acknowledgeInsight (acknowledgeInsight acknowledged insightId) insightId
        = acknowledgeInsight acknowledged insightId
    ∧ insightId ∈ acknowledgeInsight acknowledged insightId
    ∧ (acknowledgeInsight (acknowledgeInsight acknowledged insightId) insightId).card
        = (acknowledgeInsight acknowledged insightId).card := by
  unfold acknowledgeInsight
  exact ⟨Finset.insert_idem _ _, Finset.mem_insert_self _ _, by rw [Finset.insert_idem]⟩

/-- C10: `getPersonalizedInsights` never reads its `userId` argument: from
the same engine state (generated insights and acknowledged set) any two
user ids receive the same insight list. -/
theorem getPersonalizedInsights_userId_independent (u1 u2 : String) (env : AnalyticsEnv)
    (acknowledged : Finset String) :
    getPersonalizedInsights u1 env acknowledged = getPersonalizedInsights u2 env acknowledged :=
  rfl

lemma feedback_inner_fold :
    ∀ (l : List FeedbackRecord) (c : ℕ × ℕ),
      l.foldl (fun c feedback => (c.1 + 1, if feedback.helpful then c.2 + 1 else c.2)) c
        = (c.1 + l.length, c.2 + (l.filter (fun r => r.helpful)).length)
  | [], c => by simp
  | r :: rs, c => by
    rw [List.foldl_cons, feedback_inner_fold rs]
    cases hr : r.helpful <;> simp [List.filter_cons, hr, Prod.ext_iff] <;> omega

lemma feedback_outer_fold :
    ∀ (fb : List (List FeedbackRecord)) (c : ℕ × ℕ),
      fb.foldl
          (fun counts feedbackList =>
            feedbackList.foldl
              (fun c feedback => (c.1 + 1, if feedback.helpful then c.2 + 1 else c.2)) counts)
          c
        = (c.1 + totalFeedbackCount fb, c.2 + helpfulFeedbackCount fb)
  | [], c => by simp [totalFeedbackCount, helpfulFeedbackCount]
  | l :: ls, c => by
    rw [List.foldl_cons, feedback_inner_fold l c, feedback_outer_fold ls]
    simp [totalFeedbackCount, helpfulFeedbackCount, Prod.ext_iff]
    omega

lemma feedbackCounts_eq (fb : List (List FeedbackRecord)) :
    feedbackCounts fb = (totalFeedbackCount fb, helpfulFeedbackCount fb) := by
  have h := feedback_outer_fold fb (0, 0)
  simpa [feedbackCounts] using h

lemma helpful_eq_total_of_all :
    ∀ fb : List (List FeedbackRecord),
      (fb.all fun l => l.all fun r => r.helpful) = true →
      helpfulFeedbackCount fb = totalFeedbackCount fb
  | [], _ => rfl
  | l :: ls, h => by
    rw [List.all_cons, Bool.and_eq_true] at h
    have hfilter : l.filter (fun r => r.helpful) = l :=
      List.filter_eq_self.2 (fun a ha => List.all_eq_true.1 h.1 a ha)
    simp only [helpfulFeedbackCount, totalFeedbackCount, List.map_cons, List.sum_cons, hfilter]
    have ih := helpful_eq_total_of_all ls h.2
    simp only [helpfulFeedbackCount, totalFeedbackCount] at ih
    omega

/-- C7: `getInsightAcceptanceRate` returns `helpfulCount / totalFeedback`
over all feedback records ever stored across all insights, returns 0 when
no feedback record exists (in particular on the empty store), and returns
1 when there is feedback and every recorded entry is marked helpful. -/
theorem getInsightAcceptanceRate_spec (fb : List (List FeedbackRecord)) :
    getInsightAcceptanceRate fb
      = (if totalFeedbackCount fb = 0 then 0
         else (helpfulFeedbackCount fb : ℚ) / (totalFeedbackCount fb : ℚ))
    ∧ getInsightAcceptanceRate [] = 0
    ∧ ((fb.all fun l => l.all fun r => r.helpful) = true → totalFeedbackCount fb ≠ 0 →
        getInsightAcceptanceRate fb = 1) := by
  have hrate : getInsightAcceptanceRate fb
      = if 0 < totalFeedbackCount fb then
          (helpfulFeedbackCount fb : ℚ) / (totalFeedbackCount fb : ℚ)
        else 0 := by
    unfold getInsightAcceptanceRate
    rw [feedbackCounts_eq]
  refine ⟨?_, rfl, ?_⟩
  · rw [hrate]
    rcases Nat.eq_zero_or_pos (totalFeedbackCount fb) with h0 | hpos
    · rw [if_neg (by omega), if_pos h0]
    · rw [if_pos hpos, if_neg (by omega)]
  · intro hall hne
    rw [hrate, if_pos (Nat.pos_of_ne_zero hne), helpful_eq_total_of_all fb hall]
    exact div_self (by exact_mod_cast hne)

/-- A concrete two-insight feedback store whose records are all helpful. -/
def sampleFeedback : List (List FeedbackRecord) :=
  [[{ helpful := true, comment := none }], [{ helpful := true, comment := some "useful" }]]

/-- C7 witness: on `sampleFeedback` every record is helpful, feedback
exists, and the acceptance rate is 1. -/
theorem getInsightAcceptanceRate_spec_witness :
    (sampleFeedback.all fun l => l.all fun r => r.helpful) = true
    ∧ totalFeedbackCount sampleFeedback ≠ 0
    ∧ getInsightAcceptanceRate sampleFeedback = 1 :=
  ⟨by decide, by decide,
    (getInsightAcceptanceRate_spec sampleFeedback).2.2 (by decide) (by decide)⟩

/-! ### Cognitive performance history bound -/

/-- A concrete performance snapshot. -/
def sampleSnapshot : CognitivePerformanceMetrics :=
  { timestamp := 0
    reasoningAccuracy := 85/100
    reasoningLatency := 100
    learningConvergence := 8/10
    predictionAccuracy := 85/100
    knowledgeGraphSize := 15000
    activePatterns := 450 }

/-- C8: after recording a snapshot into a history within the bound, the
history never exceeds `MAX_HISTORY_SIZE` (1000); exactly at capacity the
oldest snapshot is evicted and all newer ones are retained in order, and
below capacity the snapshot is simply appended. -/
theorem performanceHistory_bounded (h : List CognitivePerformanceMetrics)
    (m : CognitivePerformanceMetrics) (hlen : h.length ≤ MAX_HISTORY_SIZE) :
    (recordPerformanceSnapshot h m).length ≤ MAX_HISTORY_SIZE
    ∧ (h.length = MAX_HISTORY_SIZE → recordPerformanceSnapshot h m = h.tail ++ [m])
    ∧ (h.length < MAX_HISTORY_SIZE → recordPerformanceSnapshot h m = h ++ [m]) := by
  unfold recordPerformanceSnapshot
  simp only [List.length_append, List.length_singleton]
  by_cases hc : MAX_HISTORY_SIZE < h.length + 1
  · rw [if_pos hc]
    have hfull : h.length = MAX_HISTORY_SIZE := by omega
    refine ⟨?_, fun _ => ?_, fun hlt => absurd hlt (by omega)⟩
    · rw [List.length_tail, List.length_append, List.length_singleton]
      omega
    · cases h with
      | nil =>
        rw [List.length_nil] at hfull
        exact absurd hfull.symm (by norm_num [MAX_HISTORY_SIZE])
      | cons a t => simp
  · rw [if_neg hc]
    refine ⟨?_, fun he => absurd he (by omega), fun _ => rfl⟩
    rw [List.length_append, List.length_singleton]
    omega

/-- C8 witness: recording into the empty history. -/
theorem performanceHistory_bounded_witness :
    ([] : List CognitivePerformanceMetrics).length ≤ MAX_HISTORY_SIZE
    ∧ ((recordPerformanceSnapshot [] sampleSnapshot).length ≤ MAX_HISTORY_SIZE
      ∧ (([] : List CognitivePerformanceMetrics).length = MAX_HISTORY_SIZE →
          recordPerformanceSnapshot [] sampleSnapshot
            = ([] : List CognitivePerformanceMetrics).tail ++ [sampleSnapshot])
      ∧ (([] : List CognitivePerformanceMetrics).length < MAX_HISTORY_SIZE →
          recordPerformanceSnapshot [] sampleSnapshot = [] ++ [sampleSnapshot])) :=
  ⟨by norm_num [MAX_HISTORY_SIZE],
    performanceHistory_bounded [] sampleSnapshot (by norm_num [MAX_HISTORY_SIZE])⟩

end Cog
